import Mathlib

/-!
Verification of the luz incremental build pipeline.

The definitions below are shallow embeddings of the change-detection,
compile-scheduling, linking, staging and orchestration logic found in
src/luz/build/module.py, src/luz/compiler/modules/tweak.py,
src/luz/compiler/modules/tool.py, src/luz/compiler/modules/prefs.py,
src/luz/build/components/prefs.py, src/luz/compiler/modules/module.py and
src/luz/compiler/luzbuild.py.  File-system state (content hashes, globbed
object counts, directory existence) is passed in explicitly; external
process invocations are recorded as events or abstracted by a success
predicate.
-/

namespace Luz

/-- One source file as seen by the hashing phase: its resolved path, its
basename (Python `file.name`), its current content hash (`get_hash(file)`),
and the number of existing per-architecture compiled objects matching the
glob `obj_dir/*/file.name*-*.o` for this file. -/
structure SourceFile where
  path : String
  name : String
  hash : String
  objCount : Nat
deriving DecidableEq, Repr

/-- Lookup in the persisted hash list (Python
`self.luz.build_info["hashlist"].get(str(file))`, a dict keyed by path). -/
def lookupHash : List (String × String) → String → Option String
  | [], _ => none
  | (k, v) :: rest, p => if k = p then some v else lookupHash rest p

/-- Changed verdict for one file, from ModuleBuilder.__hash_files
(src/luz/build/module.py lines 108-119; Tweak.__hash_files lines 74-84 has
the same structure).  `lipoCount` is the number of existing per-architecture
linked intermediates for the module, `len(resolve_path(f"obj_dir/*/install_name"))`,
which does not depend on the file. -/
def fileChanged (hashlist : List (String × String)) (lipoCount archCount : Nat)
    (f : SourceFile) : Bool :=
  match lookupHash hashlist f.path with
  | none => true
  | some fhash =>
    if fhash = f.hash then
      decide (f.objCount < archCount) || decide (lipoCount < archCount)
    else
      true

/-- The change predicate exactly as claim C1 words it: no prior hash, or a
prior hash differing from the current one, or an unchanged hash with fewer
existing per-architecture compiled objects for the file than the module
architecture count.  Stated for comparison with `fileChanged`. -/
def specNeedsRecompile (hashlist : List (String × String)) (archCount : Nat)
    (f : SourceFile) : Bool :=
  match lookupHash hashlist f.path with
  | none => true
  | some fhash =>
    if fhash = f.hash then
      decide (f.objCount < archCount)
    else
      true

/-- Modelled from the spec: `self.luz.update_hashlist(new_hashes)` is defined
on the luz object, whose class is not under src/.  Per the spec, the current
hash always overwrites the cache entry for that path, so entries of the old
list that reappear in `newHashes` are replaced and fresh entries appended. -/
def update_hashlist (hashlist newHashes : List (String × String)) :
    List (String × String) :=
  hashlist.filter (fun e => (lookupHash newHashes e.1).isNone) ++ newHashes

/-- Outcome of ModuleBuilder.__hash_files: the cache after the hashing phase
and the list of files handed to the compile phase. -/
structure HashFilesResult where
  cache : List (String × String)
  toCompile : List SourceFile
deriving DecidableEq, Repr

/-- ModuleBuilder.__hash_files, src/luz/build/module.py lines 103-150
(Tweak.__hash_files lines 65-106 is structurally identical).  The changed
list is collected per `fileChanged`; the new hashes are written through
`update_hashlist` unconditionally; the selection honours the
only-compile-changed policy; but after the emptiness check line 139
(`files = files_to_compile`) replaces the selection with the full file list.
Logos preprocessing is treated as the identity on the returned list. -/
def hash_files (hashlist : List (String × String)) (files : List SourceFile)
    (lipoCount archCount : Nat) (onlyCompileChanged : Bool) : HashFilesResult :=
  let changed := files.filter (fileChanged hashlist lipoCount archCount)
  let newHashes := files.map (fun f => (f.path, f.hash))
  let cache := update_hashlist hashlist newHashes
  let sel := if onlyCompileChanged then changed else files
  if sel.isEmpty then
    { cache := cache, toCompile := [] }
  else
    { cache := cache, toCompile := files }

/-- Tool.__hash_files cache write, src/luz/compiler/modules/tool.py lines
58-76.  `new_hashes` first maps every processed file to its current hash;
the subsequent
`new_hashes.update(dict of (k, v) for k, v in old_hashlist.items() if k in new_hashes)`
then overwrites the entry with the old value for every path already present
in the old list, and the result is what gets written to the hash file.
File paths are taken to be distinct, as they are resolved absolute paths. -/
def toolHashWrite (oldHashlist : List (String × String))
    (files : List SourceFile) : List (String × String) :=
  files.map (fun f => (f.path, (lookupHash oldHashlist f.path).getD f.hash))

/-- Observable events of one module build: the shell glob deletion
`rm -rf obj_dir/arch/stem-*` run for a (file, arch) slot, the completion of
one (file, arch) compile task with its outcome, and the start of linking. -/
inductive Event where
  | clean (arch : String) (stem : String)
  | compileDone (file : String) (arch : String) (ok : Bool)
  | linkStart
deriving DecidableEq, Repr

/-- Predicate picking out the link-start event. -/
def isLinkEvent : Event → Bool
  | Event.linkStart => true
  | _ => false

/-- Effect on the object store of the clean loop in ModuleBuilder.compile,
src/luz/build/module.py lines 386-388: for every arch and every file path,
`rm -rf obj_dir/arch/x.name-*` deletes every object of that arch whose name
starts with the file stem followed by a dash.  The store is a list of
(arch, object file name) pairs. -/
def cleanArchDirs (store : List (String × String)) (archs : List String)
    (stems : List String) : List (String × String) :=
  store.filter (fun e =>
    !(archs.contains e.1 && stems.any (fun s => (s ++ "-").data.isPrefixOf e.2.data)))

/-- ModuleBuilder.compile, src/luz/build/module.py lines 381-411, together
with the early-return check of ModuleBuilder.__linker (lines 157-164), and
structurally also Tweak.compile (tweak.py lines 223-257).  The clean loop
runs first; then one compile task per (file, arch) is submitted and
`wait(futures)` returns only after every task has completed (no task is
cancelled when a sibling fails); the results are inspected only after the
wait, and the first error is returned without linking; otherwise the linker
runs, returning early when no file needed compilation and the linked
artifact already exists.  (The shutil.rmtree calls inside the per-arch
compile functions pass a literal star in the path, so they remove nothing;
the effective stale-fragment deletion is the shell glob modelled by
`cleanArchDirs`.)  Returns the event trace, the object store after the
clean phase, and the error value. -/
def compileModule (name : String) (files : List SourceFile)
    (archs : List String) (taskOk : String → String → Bool)
    (artifactExists : Bool) (store : List (String × String)) :
    List Event × List (String × String) × Option String :=
  let cleans := archs.flatMap (fun a => files.map (fun f => Event.clean a f.name))
  let store2 := cleanArchDirs store archs (files.map (fun f => f.name))
  let dones := files.flatMap (fun f =>
    archs.map (fun a => Event.compileDone f.path a (taskOk f.path a)))
  if files.all (fun f => archs.all (fun a => taskOk f.path a)) then
    if files.isEmpty && artifactExists then
      (cleans ++ dones, store2, none)
    else
      (cleans ++ dones ++ [Event.linkStart], store2, none)
  else
    (cleans ++ dones, store2,
      some ("An error occured when attempting to compile for module \""
        ++ name ++ "\"."))

/-- LuzBuild.build, src/luz/compiler/luzbuild.py lines 341-361.  Every unit
is a (name, result) pair where the result is the value compile() or the
submodule build() returned (none on success); pool.map runs the whole level,
then the result loop calls error and exit(1) at the first non-none result.
Returns the names of the units that ran and the abort message, if any. -/
def build (moduleResults submoduleResults : List (String × Option String)) :
    List String × Option String :=
  let ranModules := moduleResults.map (fun u => u.1)
  match moduleResults.filterMap (fun u => u.2) with
  | e :: _ => (ranModules, some e)
  | [] =>
    let ran := ranModules ++ submoduleResults.map (fun u => u.1)
    match submoduleResults.filterMap (fun u => u.2) with
    | e :: _ => (ran, some e)
    | [] => (ran, none)

/-- Outcome of Preferences staging: the contents copied into the bundle
directory `dirtocopy` so far, and the error value. -/
structure StageResult where
  bundleContents : List String
  error : Option String
deriving DecidableEq, Repr

/-- Preferences.__stage, src/luz/compiler/modules/prefs.py lines 96-114
(src/luz/build/components/prefs.py lines 47-71 is identical in this
respect): the bundle directory is created and the linked dylib tree is
copied into it first; only then is the Resources directory checked, and if
it is absent an error naming the module is returned with the dylib already
in place; otherwise the resources are merged in. -/
def prefsStage (name : String) (dylibFiles : List String)
    (resourcesExist : Bool) (resourceFiles : List String) : StageResult :=
  let contents := dylibFiles
  if !resourcesExist then
    { bundleContents := contents,
      error := some ("Resources/ folder for \"" ++ name ++ "\" does not exist") }
  else
    { bundleContents := contents ++ resourceFiles, error := none }

/-- Tweak.__stage directory selection, src/luz/compiler/modules/tweak.py
lines 185-204.  Returns the staging copy destination and whether the
custom-install-directory warning was emitted. -/
def tweakStageDirs (dir : String) (rootless : Bool)
    (installDir : Option String) : String × Bool :=
  match installDir with
  | none =>
    (if rootless then dir ++ "/_/var/jb/usr/lib/TweakInject"
     else dir ++ "/_/Library/MobileSubstrate/DynamicLibraries/", false)
  | some d =>
    (if rootless then dir ++ "/_/var/jb/" ++ d else dir ++ "/_/" ++ d,
     rootless)

/-- Tool.__stage directory selection, src/luz/compiler/modules/tool.py
lines 175-189.  Returns the staging copy destination and whether the
custom-install-directory warning was emitted. -/
def toolStageDirs (dir : String) (rootless : Bool)
    (installDir : Option String) : String × Bool :=
  match installDir with
  | none =>
    (if rootless then dir ++ "/_/var/jb/usr/bin" else dir ++ "/_/usr/bin",
     false)
  | some d =>
    (if rootless then dir ++ "/_/var/jb/" ++ d else dir ++ "/_/" ++ d,
     rootless)

/-- Private-frameworks handling in ModuleBuilder.__init__,
src/luz/build/module.py lines 50-55: when the module declares private
frameworks, the directory SDK/System/Library/PrivateFrameworks is appended
to the framework search dirs if it exists, and otherwise an exception is
raised; the SDK location is not consulted. -/
def builderPrivateFrameworks (privateFrameworks : List String) (sdk : String)
    (privateDirExists : Bool) (frameworkDirs : List String) :
    Except String (List String) :=
  if privateFrameworks ≠ [] then
    if privateDirExists then
      Except.ok (frameworkDirs ++ [sdk ++ "/System/Library/PrivateFrameworks"])
    else
      Except.error ("Private frameworks are not available on the SDK being used. ("
        ++ sdk ++ ")")
  else
    Except.ok frameworkDirs

/-- Private-frameworks handling in Module.__init__,
src/luz/compiler/modules/module.py lines 156-161: construction fails when
private frameworks are declared and the SDK path starts with /Applications;
otherwise the private-frameworks flag is set from the SDK path, with no
check that the directory exists (and even when no private frameworks are
declared). -/
def modulePrivateFrameworks (privateFrameworks : String) (sdk : String) :
    Except String String :=
  if privateFrameworks ≠ "" && sdk.startsWith "/Applications" then
    Except.error "No SDK specified. Xcode will be used, and private frameworks will not be found."
  else
    Except.ok ("-F" ++ sdk ++ "/System/Library/PrivateFrameworks")

theorem takeWhile_append_all {α : Type} (p : α → Bool) (xs ys : List α)
    (h : ∀ x ∈ xs, p x = true) :
    (xs ++ ys).takeWhile p = xs ++ ys.takeWhile p := by
  induction xs with
  | nil => simp
  | cons a l ih =>
    have ha := h a (List.mem_cons_self a l)
    simp only [List.cons_append, List.takeWhile_cons, ha, if_true]
    rw [ih (fun x hx => h x (List.mem_cons_of_mem a hx))]

theorem takeWhile_all_eq {α : Type} (p : α → Bool) (xs : List α)
    (h : ∀ x ∈ xs, p x = true) : xs.takeWhile p = xs := by
  have := takeWhile_append_all p xs [] h
  simpa using this

theorem str_append_assoc (a b c : String) : a ++ b ++ c = a ++ (b ++ c) := by
  apply String.ext
  simp [String.data_append, List.append_assoc]

/-- C1: the claim states the changed verdict as an iff with three cases
(no prior hash, differing hash, unchanged hash with fewer objects than
architectures).  Counterexample: with the prior hash equal to the current
one and all per-file objects present (objCount = archCount = 1) but the
per-architecture linked intermediates missing (lipoCount = 0), the code
marks the file as changed while the claim says it is unchanged. -/
theorem c1_counterexample :
    fileChanged [("a.c", "h")] 0 1 ⟨"a.c", "a.c", "h", 1⟩ = true ∧
    specNeedsRecompile [("a.c", "h")] 1 ⟨"a.c", "a.c", "h", 1⟩ = false := by
  exact ⟨rfl, rfl⟩

/-- C1 (amended): the change-detection step marks a file as needing
recompilation if and only if the cache has no prior hash for its path, or
the prior hash differs from the current content hash, or the hash is
unchanged but either the per-file object count or the count of
per-architecture linked intermediates for the module is less than the
architecture count. -/
theorem c1_changed_iff (hashlist : List (String × String))
    (lipoCount archCount : Nat) (f : SourceFile) :
    fileChanged hashlist lipoCount archCount f = true ↔
      lookupHash hashlist f.path = none ∨
      (∃ h, lookupHash hashlist f.path = some h ∧ h ≠ f.hash) ∨
      (lookupHash hashlist f.path = some f.hash ∧
        (f.objCount < archCount ∨ lipoCount < archCount)) := by
  unfold fileChanged
  cases hl : lookupHash hashlist f.path with
  | none => simp
  | some h =>
    by_cases hh : h = f.hash
    · subst hh
      simp
    · simp [hh, Ne.symm hh]

/-- C2: with the only-compile-changed policy enabled, a file whose hash is
unchanged and whose objects are all present is still returned for
compilation as soon as any other file changed: line 139 of
src/luz/build/module.py (files = files_to_compile) replaces the changed
list with the full file list whenever it is nonempty.  Here a.c is
unchanged and complete (second conjunct) yet the compile set is both
files. -/
theorem c2_recompiles_all :
    (hash_files [("a.c", "ha"), ("b.c", "hb")]
        [⟨"a.c", "a.c", "ha", 1⟩, ⟨"b.c", "b.c", "hb2", 1⟩] 1 1 true).toCompile =
      [⟨"a.c", "a.c", "ha", 1⟩, ⟨"b.c", "b.c", "hb2", 1⟩] ∧
    fileChanged [("a.c", "ha"), ("b.c", "hb")] 1 1 ⟨"a.c", "a.c", "ha", 1⟩ = false := by
  exact ⟨rfl, rfl⟩

/-- C3: Tool.__hash_files writes the OLD hash back for every path already
present in the cache, so after the hashing phase the cache does not map a
previously seen path to its latest observed hash: with cached hash h0 and
current hash h1, the written cache still holds h0. -/
theorem c3_old_hash_kept :
    toolHashWrite [("main.c", "h0")] [⟨"main.c", "main.c", "h1", 0⟩] =
      [("main.c", "h0")] ∧
    ("h0" : String) ≠ "h1" := by
  exact ⟨rfl, by decide⟩

/-- C4: the link step of a module never begins before every scheduled
(file, arch) compile task has completed, successfully or not: the completion
event of every scheduled task, carrying its own outcome, lies in the prefix
of the build trace strictly preceding the first link-start event (when no
link-start occurs, the whole trace), so no in-flight sibling task is
cancelled when one task fails. -/
theorem c4_barrier (name : String) (files : List SourceFile)
    (archs : List String) (taskOk : String → String → Bool)
    (artifactExists : Bool) (store : List (String × String))
    (f : SourceFile) (a : String) (hf : f ∈ files) (ha : a ∈ archs) :
    Event.compileDone f.path a (taskOk f.path a) ∈
      ((compileModule name files archs taskOk artifactExists store).1.takeWhile
        (fun e => !(isLinkEvent e))) := by
  have hboth : ∀ x ∈ (archs.flatMap (fun a2 => files.map (fun f2 => Event.clean a2 f2.name))
      ++ files.flatMap (fun f2 => archs.map (fun a2 => Event.compileDone f2.path a2 (taskOk f2.path a2)))),
      (!(isLinkEvent x)) = true := by
    intro x hx
    rcases List.mem_append.mp hx with h | h
    · simp only [List.mem_flatMap, List.mem_map] at h
      obtain ⟨a2, -, f2, -, rfl⟩ := h
      rfl
    · simp only [List.mem_flatMap, List.mem_map] at h
      obtain ⟨f2, -, a2, -, rfl⟩ := h
      rfl
  have hmem : Event.compileDone f.path a (taskOk f.path a) ∈
      files.flatMap (fun f2 => archs.map (fun a2 => Event.compileDone f2.path a2 (taskOk f2.path a2))) := by
    simp only [List.mem_flatMap, List.mem_map]
    exact ⟨f, hf, a, ha, rfl⟩
  unfold compileModule
  split
  · split
    · simp only []
      rw [takeWhile_all_eq _ _ hboth]
      exact List.mem_append_right _ hmem
    · simp only []
      rw [takeWhile_append_all _ _ _ hboth]
      exact List.mem_append_left _ (List.mem_append_right _ hmem)
  · simp only []
    rw [takeWhile_all_eq _ _ hboth]
    exact List.mem_append_right _ hmem

/-- C4 witness: in a module with a failing compile task (a.c on arm64), the
sibling task for b.c still completes before any link start. -/
theorem c4_barrier_witness :
    Event.compileDone "b.c" "arm64" true ∈
      ((compileModule "m" [⟨"a.c", "a.c", "ha", 0⟩, ⟨"b.c", "b.c", "hb", 0⟩]
          ["arm64"] (fun f _ => f == "b.c") false []).1.takeWhile
        (fun e => !(isLinkEvent e))) := by
  exact c4_barrier "m" [⟨"a.c", "a.c", "ha", 0⟩, ⟨"b.c", "b.c", "hb", 0⟩]
    ["arm64"] (fun f _ => f == "b.c") false [] ⟨"b.c", "b.c", "hb", 0⟩ "arm64"
    (by decide) (by decide)

/-- C6: for a module with zero files requiring compilation this run, the
link step runs if and only if the previously linked artifact is absent from
disk: with the artifact present linking is skipped entirely, and with it
absent the link-start event occurs even though nothing was compiled. -/
theorem c6_link_skip (name : String) (archs : List String)
    (taskOk : String → String → Bool) (artifactExists : Bool)
    (store : List (String × String)) (files : List SourceFile)
    (hfiles : files = []) :
    (Event.linkStart ∈ (compileModule name files archs taskOk artifactExists store).1) ↔
      artifactExists = false := by
  subst hfiles
  cases artifactExists <;> simp [compileModule, cleanArchDirs]

/-- C6 witness: with no files to compile and no artifact on disk, the link
step starts. -/
theorem c6_link_skip_witness :
    (Event.linkStart ∈
      (compileModule "m" [] ["arm64"] (fun _ _ => true) false []).1) ↔
      false = false :=
  c6_link_skip "m" ["arm64"] (fun _ _ => true) false [] [] rfl

/-- C8: every stale output fragment of a previous attempt -- an object in
the store whose name shares the file-stem-dash prefix of a file being
compiled, in any target architecture -- is gone from the object store that
the clean phase of compileModule produces before any compiler invocation. -/
theorem c8_stale_cleared (name : String) (files : List SourceFile)
    (archs : List String) (taskOk : String → String → Bool)
    (artifactExists : Bool) (store : List (String × String))
    (f : SourceFile) (a o : String) (hf : f ∈ files) (ha : a ∈ archs)
    (hstale : (f.name ++ "-").data.isPrefixOf o.data = true) :
    (a, o) ∉ (compileModule name files archs taskOk artifactExists store).2.1 := by
  have hstore : (compileModule name files archs taskOk artifactExists store).2.1 =
      cleanArchDirs store archs (files.map (fun f2 => f2.name)) := by
    unfold compileModule
    split
    · split <;> rfl
    · rfl
  rw [hstore]
  intro hmem
  unfold cleanArchDirs at hmem
  rw [List.mem_filter] at hmem
  obtain ⟨-, hp⟩ := hmem
  simp only [Bool.not_eq_true', Bool.and_eq_false_iff] at hp
  rcases hp with hp | hp
  · rw [List.contains_eq_any_beq] at hp
    simp only [List.any_eq_false] at hp
    exact absurd (by simp : (a == a) = true) (hp a ha)
  · rw [List.any_eq_false] at hp
    exact hp f.name (List.mem_map_of_mem _ hf) hstale

/-- C8 witness: a half-written object a.c-17.o left by an earlier run is not
in the post-clean store when a.c is compiled for arm64. -/
theorem c8_stale_cleared_witness :
    ("arm64", "a.c-17.o") ∉
      (compileModule "m" [⟨"a.c", "a.c", "ha", 0⟩] ["arm64"]
        (fun _ _ => true) false [("arm64", "a.c-17.o")]).2.1 := by
  exact c8_stale_cleared "m" [⟨"a.c", "a.c", "ha", 0⟩] ["arm64"]
    (fun _ _ => true) false [("arm64", "a.c-17.o")] ⟨"a.c", "a.c", "ha", 0⟩
    "arm64" "a.c-17.o" (by decide) (by decide) (by decide)

/-- C5: counterexample.  First conjunct: with one module that failed and one
submodule, the list of units that ran is just the module -- the submodule
never gets to run, contradicting the claim that every submodule runs even if
some module fails (build() calls error and exit(1) on the first non-null
module result, before mapping over submodules).  Second conjunct: with two
failed modules only the first failure is reported, so failures are not
aggregated for the caller. -/
theorem c5_counterexample :
    (build [("m1", some "boom")] [("s1", none)]).1 = ["m1"] ∧
    (build [("m1", some "e1"), ("m2", some "e2")] []).2 = some "e1" := by
  exact ⟨rfl, rfl⟩

/-- C5 (amended): build() runs every module of the current level to
completion and collects all their results before inspecting them (no
fail-fast within a level); when no module failed, every submodule also runs
and the first submodule failure, if any, aborts the run; when some module
failed, the run aborts with the first module failure before any submodule
runs. -/
theorem c5_level_semantics (mr sr : List (String × Option String)) :
    (∀ m ∈ mr, m.1 ∈ (build mr sr).1) ∧
    (mr.filterMap (fun u => u.2) = [] →
      (build mr sr).1 = mr.map (fun u => u.1) ++ sr.map (fun u => u.1) ∧
      (build mr sr).2 = (sr.filterMap (fun u => u.2)).head?) ∧
    (mr.filterMap (fun u => u.2) ≠ [] →
      (build mr sr).1 = mr.map (fun u => u.1) ∧
      (build mr sr).2 = (mr.filterMap (fun u => u.2)).head?) := by
  unfold build
  cases hm : mr.filterMap (fun u => u.2) with
  | cons e rest =>
    refine ⟨?_, ?_, ?_⟩
    · intro m hm2
      exact List.mem_map_of_mem _ hm2
    · intro h
      simp [hm] at h
    · intro _
      exact ⟨rfl, rfl⟩
  | nil =>
    cases hs : sr.filterMap (fun u => u.2) with
    | cons e rest =>
      refine ⟨?_, ?_, ?_⟩
      · intro m hm2
        exact List.mem_append_left _ (List.mem_map_of_mem _ hm2)
      · intro _
        exact ⟨rfl, rfl⟩
      · intro h
        exact absurd rfl h
    | nil =>
      refine ⟨?_, ?_, ?_⟩
      · intro m hm2
        exact List.mem_append_left _ (List.mem_map_of_mem _ hm2)
      · intro _
        exact ⟨rfl, rfl⟩
      · intro h
        exact absurd rfl h

/-- C5 witness: when all modules succeed, a submodule does run (even a
failing one). -/
theorem c5_level_semantics_witness :
    ("s1" : String) ∈ (build [("m1", none)] [("s1", some "e")]).1 := by
  have h := (c5_level_semantics [("m1", none)] [("s1", some "e")]).2.1 rfl
  rw [h.1]
  decide

/-- C7: counterexample.  A Preferences module with no Resources directory
does fail staging with a specific, attributable error (first conjunct), but
the staging destination is NOT left without a partially populated bundle
directory: the linked dylib was already copied into the bundle before the
check, so a partial bundle remains (second conjunct). -/
theorem c7_counterexample :
    (prefsStage "prefs" ["prefs.dylib"] false []).error =
      some "Resources/ folder for \"prefs\" does not exist" ∧
    (prefsStage "prefs" ["prefs.dylib"] false []).bundleContents ≠ [] := by
  exact ⟨by decide, by decide⟩

/-- C7 (amended): for every Preferences module whose project has no
Resources directory, staging fails with a specific error naming the module,
but only after the bundle directory has been populated with the linked
dylib tree, which is left in place. -/
theorem c7_stage_error_keeps_dylib (name : String) (dylibFiles resourceFiles : List String) :
    (prefsStage name dylibFiles false resourceFiles).error =
      some ("Resources/ folder for \"" ++ name ++ "\" does not exist") ∧
    (prefsStage name dylibFiles false resourceFiles).bundleContents = dylibFiles := by
  exact ⟨rfl, rfl⟩

/-- C9: in rootless (relocated-root) mode, the staging copy destination of
both the Tweak and the Tool variants is prefixed with /var/jb under the
package root, whether the install directory is the variant default or an
explicit override, and the custom-install-directory warning is emitted
exactly when an explicit override is combined with rootless mode. -/
theorem c9_rootless (dir : String) (installDir : Option String) :
    (∃ r, (tweakStageDirs dir true installDir).1 = dir ++ "/_/var/jb" ++ r) ∧
    (∃ r, (toolStageDirs dir true installDir).1 = dir ++ "/_/var/jb" ++ r) ∧
    (tweakStageDirs dir true installDir).2 = installDir.isSome ∧
    (toolStageDirs dir true installDir).2 = installDir.isSome := by
  cases installDir with
  | none =>
    refine ⟨⟨"/usr/lib/TweakInject", ?_⟩, ⟨"/usr/bin", ?_⟩, rfl, rfl⟩
    · show dir ++ "/_/var/jb/usr/lib/TweakInject" = dir ++ "/_/var/jb" ++ "/usr/lib/TweakInject"
      rw [str_append_assoc]
      exact congrArg (fun s => dir ++ s) (by decide)
    · show dir ++ "/_/var/jb/usr/bin" = dir ++ "/_/var/jb" ++ "/usr/bin"
      rw [str_append_assoc]
      exact congrArg (fun s => dir ++ s) (by decide)
  | some d =>
    refine ⟨⟨"/" ++ d, ?_⟩, ⟨"/" ++ d, ?_⟩, rfl, rfl⟩
    · show dir ++ "/_/var/jb/" ++ d = dir ++ "/_/var/jb" ++ ("/" ++ d)
      rw [str_append_assoc, str_append_assoc]
      refine congrArg (fun s => dir ++ s) ?_
      rw [← str_append_assoc]
      exact congrArg (fun s => s ++ d) (by decide)
    · show dir ++ "/_/var/jb/" ++ d = dir ++ "/_/var/jb" ++ ("/" ++ d)
      rw [str_append_assoc, str_append_assoc]
      refine congrArg (fun s => dir ++ s) ?_
      rw [← str_append_assoc]
      exact congrArg (fun s => s ++ d) (by decide)

/-- C10: counterexample.  The claim says construction fails when the SDK
path is an Xcode default location OR the SDK lacks the PrivateFrameworks
directory.  ModuleBuilder.__init__ only checks directory existence: with a
module declaring private frameworks, an SDK under /Applications and the
directory present, construction succeeds and adds the search path, where
the claim requires a failure. -/
theorem c10_counterexample :
    builderPrivateFrameworks ["Foo"] "/Applications/Xcode.sdk" true [] =
      Except.ok ["/Applications/Xcode.sdk/System/Library/PrivateFrameworks"] := by
  rfl

/-- C10 (amended): each construction path checks exactly one of the two
conditions.  ModuleBuilder.__init__ fails iff private frameworks are
declared and the SDK lacks the System/Library/PrivateFrameworks directory
(the SDK location is never consulted), and otherwise appends the
private-frameworks search directory; Module.__init__ fails iff private
frameworks are declared and the SDK path starts with /Applications
(directory existence is never consulted), and otherwise sets the
private-frameworks search flag from the SDK path. -/
theorem c10_sdk_checks (pf : List String) (sdk : String) (dirExists : Bool)
    (fd : List String) (pfs : String) :
    ((∃ e, builderPrivateFrameworks pf sdk dirExists fd = Except.error e) ↔
      (pf ≠ [] ∧ dirExists = false)) ∧
    (pf ≠ [] → dirExists = true →
      builderPrivateFrameworks pf sdk dirExists fd =
        Except.ok (fd ++ [sdk ++ "/System/Library/PrivateFrameworks"])) ∧
    ((∃ e, modulePrivateFrameworks pfs sdk = Except.error e) ↔
      (pfs ≠ "" ∧ sdk.startsWith "/Applications" = true)) ∧
    ((pfs = "" ∨ sdk.startsWith "/Applications" = false) →
      modulePrivateFrameworks pfs sdk =
        Except.ok ("-F" ++ sdk ++ "/System/Library/PrivateFrameworks")) := by
  refine ⟨?_, ?_, ?_, ?_⟩
  · unfold builderPrivateFrameworks
    by_cases hp : pf = []
    · simp [hp]
    · cases dirExists <;> simp [hp]
  · intro hp hd
    subst hd
    unfold builderPrivateFrameworks
    simp [hp]
  · unfold modulePrivateFrameworks
    by_cases hp : pfs = ""
    · simp [hp]
    · cases hs : sdk.startsWith "/Applications" <;> simp [hp, hs]
  · intro h
    unfold modulePrivateFrameworks
    rcases h with h | h <;> simp [h]

/-- C10 witness: with private frameworks declared, a non-Xcode SDK and the
directory present, construction succeeds and the search path is added. -/
theorem c10_sdk_checks_witness :
    builderPrivateFrameworks ["Foo"] "/opt/sdk" true [] =
      Except.ok ["/opt/sdk/System/Library/PrivateFrameworks"] :=
  (c10_sdk_checks ["Foo"] "/opt/sdk" true [] "").2.1 (by decide) rfl

end Luz
